import Mathlib

/-!
Verification of the request/response protocol core of the `bin` repository:
payload construction, transport error handling, response parsing, and the
caller-owned conversation history, shallowly embedded from the Python sources
(`gemini.espeak_and_piper.py`, `gemini.espeak.py`,
`.old/gemini.espeak_and_piper1.py`, `.old/code.py`,
`gen_ai_console/gemini_handler.py`).

Python string primitives (`str.strip`, `str.split`, `str.splitlines`,
`str.startswith`, slicing, `"sep".join`) are embedded as structurally
recursive functions over `List Char` so that every definition evaluates
inside the kernel.
-/

namespace PyStr

/-- Embedding of Python `str.startswith` (character-wise prefix test). -/
def pyStartsWith (s pre : String) : Bool := pre.data.isPrefixOf s.data

/-- Embedding of Python `str.endswith` (character-wise suffix test). -/
def pyEndsWith (s suf : String) : Bool := suf.data.isSuffixOf s.data

/-- Character-list core of Python `str.strip`: drop leading and trailing
whitespace. -/
def trimChars (cs : List Char) : List Char :=
  ((cs.dropWhile Char.isWhitespace).reverse.dropWhile Char.isWhitespace).reverse

/-- Embedding of Python `str.strip()`. -/
def pyStrip (s : String) : String := String.mk (trimChars s.data)

/-- Embedding of Python slicing `s[n:]` (drop the first `n` characters). -/
def pyDrop (s : String) (n : Nat) : String := String.mk (s.data.drop n)

/-- Split a character list at every character satisfying `p`, keeping empty
pieces (the semantics of Python `str.split(sep)` for a one-character
separator, before any filtering). -/
def splitOnPred (p : Char → Bool) : List Char → List (List Char)
  | [] => [[]]
  | c :: cs =>
    let r := splitOnPred p cs
    if p c then [] :: r else (c :: r.headD []) :: r.tail

/-- Embedding of Python `str.splitlines()` for `\n`-separated text: split on
newlines and drop the trailing empty piece produced by a final newline. -/
def pySplitlines (s : String) : List String :=
  let l := (splitOnPred (fun c => c == '\n') s.data).map String.mk
  if l.getLast? = some "" then l.dropLast else l

/-- Embedding of Python `str.split()` with no argument: split on whitespace
runs, discarding empty pieces. -/
def pySplitWs (s : String) : List String :=
  (((splitOnPred Char.isWhitespace s.data).filter (fun w => !w.isEmpty)).map String.mk)

/-- Embedding of Python `"sep".join(xs)`. -/
def pyJoin (sep : String) : List String → String
  | [] => ""
  | x :: rest => rest.foldl (fun acc y => acc ++ sep ++ y) x

/-- Concatenation of a list of strings (Python `"".join(xs)`). -/
def pyConcat (xs : List String) : String := xs.foldl (fun acc y => acc ++ y) ""

/-- Substring containment: `sub` occurs contiguously inside `s`. -/
def strContains (s sub : String) : Prop := ∃ a b : String, s = a ++ sub ++ b

end PyStr

namespace GeminiEspeakAndPiper

open PyStr

/-- Dynamically typed Python values, as far as the history-handling code of
`gemini.espeak_and_piper.py` can observe them: strings, integers and lists.
History entries loaded from JSON are lists; a well-formed entry is a
two-element list of strings. -/
inductive PyVal where
  | str (s : String)
  | int (n : Int)
  | list (xs : List PyVal)

/-- Embedding of Python `type(v)` as rendered inside an f-string
(`f"{type(q)}"` prints `<class 'str'>` and so on). -/
def pyTypeName : PyVal → String
  | .str _ => "<class \x27str\x27>"
  | .int _ => "<class \x27int\x27>"
  | .list _ => "<class \x27list\x27>"

mutual

/-- Embedding of Python `repr(v)` for the modelled value universe (used when
an f-string renders a list). -/
def pyRepr : PyVal → String
  | .str s => "\x27" ++ s ++ "\x27"
  | .int n => toString n
  | .list xs => "[" ++ pyJoin ", " (pyReprList xs) ++ "]"

/-- Helper of `pyRepr`: render every element of a list. -/
def pyReprList : List PyVal → List String
  | [] => []
  | x :: xs => pyRepr x :: pyReprList xs

end

/-- Embedding of Python `str(v)` as used by an f-string: a string renders as
itself, other values through their `repr`. -/
def pyStr : PyVal → String
  | .str s => s
  | v => pyRepr v

/-- Python tuple unpacking `q, a = item` of one history entry: succeeds
exactly on two-element sequences (a two-element list, or a two-character
string, which Python happily unpacks character by character); anything else
raises. -/
def unpack2 : PyVal → Option (PyVal × PyVal)
  | .list [x, y] => some (x, y)
  | .str s =>
    match s.data with
    | [c₁, c₂] => some (.str (String.mk [c₁]), .str (String.mk [c₂]))
    | _ => none
  | _ => none

/-- Python `isinstance(v, str)`. -/
def isStr : PyVal → Bool
  | .str _ => true
  | _ => false

/-- One `parts` element of the wire payload, `{"text": ...}`. -/
structure Part where
  text : String
deriving DecidableEq

/-- One `contents` entry of the wire payload, `{"role": ..., "parts": [...]}`. -/
structure Entry where
  role : String
  parts : List Part
deriving DecidableEq

/-- The request payload `{"contents": [...]}` built by
`_format_gemini_payload`. -/
structure Payload where
  contents : List Entry
deriving DecidableEq

/-- The `for q, a in history:` header of `_format_gemini_payload`: unpack
every entry, raising (`Except.error`) at the first entry that is not a
two-element sequence.  The Python loop raises before any output is used, so
first-error semantics coincide with the source's interleaved loop. -/
def unpackHistory : List PyVal → Except String (List (PyVal × PyVal))
  | [] => .ok []
  | item :: rest =>
    match unpack2 item with
    | none => .error ("TypeError: cannot unpack history entry of type " ++ pyTypeName item)
    | some qa =>
      match unpackHistory rest with
      | .error e => .error e
      | .ok qs => .ok (qa :: qs)

/-- The warning printed by `_format_gemini_payload` when a history entry is a
pair whose components are not both strings. -/
def skipWarning (q a : PyVal) : String :=
  "Warning: Skipping invalid history entry: (" ++ pyTypeName q ++ ", " ++ pyTypeName a ++ ")"

/-- Body of the history loop of `_format_gemini_payload`: a pair of strings
contributes a user entry and a model entry; any other pair is skipped with a
warning. -/
def entriesOfPairs : List (PyVal × PyVal) → List Entry × List String
  | [] => ([], [])
  | (q, a) :: rest =>
    let r := entriesOfPairs rest
    match q, a with
    | .str qs, .str a2 => (⟨"user", [⟨qs⟩]⟩ :: ⟨"model", [⟨a2⟩]⟩ :: r.1, r.2)
    | q', a' => (r.1, skipWarning q' a' :: r.2)

/-- Embedding of `_format_gemini_payload(query, history, modifier)` from
`gemini.espeak_and_piper.py` (lines 19-37).  The result carries the built
payload together with the warnings printed along the way; `Except.error`
models an uncaught exception escaping the builder. -/
def _format_gemini_payload (query : String) (history : List PyVal) (modifier : String) :
    Except String (Payload × List String) :=
  match unpackHistory history with
  | .error e => .error e
  | .ok pairs =>
    let conv := entriesOfPairs pairs
    let history_context :=
      if history.isEmpty then "None"
      else pyJoin "\n" (pairs.map fun qa => "User: " ++ pyStr qa.1 ++ "\nModel: " ++ pyStr qa.2)
    let current_query_text :=
      if history.isEmpty then
        (if modifier ≠ "" then modifier ++ "\nQuery: " ++ query else query)
      else
        modifier ++ "\n---\nPrevious Context:\n" ++ history_context
          ++ "\n---\nCurrent Query:\n" ++ query
    .ok (⟨conv.1 ++ [⟨"user", [⟨current_query_text⟩]⟩]⟩, conv.2)

/-- A well-formed history turn `(q, a)` as the Python value `[q, a]`. -/
def pyPair (p : String × String) : PyVal := .list [.str p.1, .str p.2]

/-- The two payload entries contributed by one well-formed history turn. -/
def turnEntries (p : String × String) : List Entry :=
  [⟨"user", [⟨p.1⟩]⟩, ⟨"model", [⟨p.2⟩]⟩]

end GeminiEspeakAndPiper

namespace GeminiEspeakAndPiper

/-- Network-level outcomes of the `requests.post(...)` call inside
`_call_gemini_api`.  `raise_for_status` turns HTTP 4xx/5xx statuses into
`requests.exceptions.HTTPError`, a subclass of `RequestException`, so HTTP
failures and connection-level failures both surface as `requestException`
here; a timeout raises `requests.exceptions.Timeout`, which the source
catches first. -/
inductive NetOutcome (β : Type) where
  | success (body : β)
  | timeout
  | requestException (msg : String)

/-- The `timeout=60` argument of the `requests.post` call in
`_call_gemini_api` (`gemini.espeak_and_piper.py`, line 42); `none` would mean
no timeout argument. -/
def requestTimeoutSeconds : Option Nat := some 60

/-- Embedding of `_call_gemini_api` (`gemini.espeak_and_piper.py`, lines
39-48): the body type is abstract because this layer never inspects it.  A
result `Sum.inl s` is the error string returned from an `except` arm,
`Sum.inr b` the successful response; `Except.error` would model an exception
escaping the function. -/
def _call_gemini_api (β : Type) : NetOutcome β → Except String (String ⊕ β)
  | .success b => .ok (Sum.inr b)
  | .timeout => .ok (Sum.inl "Error: API request timed out.")
  | .requestException msg => .ok (Sum.inl ("Error communicating with API: " ++ msg))

/-- History cap of the main loop: `history = history[-10:]`
(`gemini.espeak_and_piper.py`, line 273). -/
def capHist : Nat := 10

/-- Python slice `l[-n:]`: the last `n` elements (all of them when the list
is shorter). -/
def takeLast (n : Nat) (l : List α) : List α := l.drop (l.length - n)

/-- The append-and-truncate step of the main loop:
`history.append([query, response]); history = history[-10:]`. -/
def appendTurn (h : List (String × String)) (t : String × String) :
    List (String × String) :=
  takeLast capHist (h ++ [t])

/-- The history update performed by the main loop after printing a response
(`gemini.espeak_and_piper.py`, lines 270-273): the turn is stored unless the
response string starts with `"Error:"`. -/
def updateHistory (history : List (String × String)) (query response : String) :
    List (String × String) :=
  if ¬ PyStr.pyStartsWith response "Error:" then appendTurn history (query, response)
  else history

/-- JSON values, modelling what `json.dump` writes and `json.load` returns
for the `/save` / `/load` commands.  The round-trip through the file is
settled at the level of JSON values; the text layer (`json.dump` then
`json.load`) is the identity on values by the JSON grammar. -/
inductive Json where
  | null
  | bool (b : Bool)
  | num (n : Int)
  | str (s : String)
  | arr (xs : List Json)
  | obj (fields : List (String × Json))

/-- The value written by `/save`: `json.dump(history, f)` where `history` is
a list of `[query, response]` pairs (`gemini.espeak_and_piper.py`, lines
231-243). -/
def saveHistory (h : List (String × String)) : Json :=
  .arr (h.map fun p => .arr [.str p.1, .str p.2])

/-- The per-item validation of `/load`:
`isinstance(item, list) and len(item) == 2`
(`gemini.espeak_and_piper.py`, line 251). -/
def validTurn : Json → Bool
  | .arr [_, _] => true
  | _ => false

/-- The `/load` command (`gemini.espeak_and_piper.py`, lines 244-262): the
decoded value must be a list whose items are all two-element lists; otherwise
the file is rejected (`none`) and the in-memory history is untouched. -/
def loadHistory (j : Json) : Option (List Json) :=
  match j with
  | .arr items => if items.all validTurn then some items else none
  | _ => none

/-- Closed form of the final user entry's text built by
`_format_gemini_payload` for a well-formed history of text pairs. -/
def finalText (q m : String) (H : List (String × String)) : String :=
  if H.isEmpty then (if m ≠ "" then m ++ "\nQuery: " ++ q else q)
  else
    m ++ "\n---\nPrevious Context:\n"
      ++ PyStr.pyJoin "\n" (H.map fun p => "User: " ++ p.1 ++ "\nModel: " ++ p.2)
      ++ "\n---\nCurrent Query:\n" ++ q

end GeminiEspeakAndPiper

namespace GeminiEspeak

/-- Network outcomes of the bare `requests.post(full_url, ...)` call in
`get_gemini_response` (`gemini.espeak.py`, line 26).  Without
`raise_for_status`, HTTP 4xx/5xx statuses still return a response object;
only network-level failures raise. -/
inductive NetOutcome (β : Type) where
  | response (status : Nat) (body : β)
  | timeout
  | requestException (msg : String)

/-- The `requests.post` call in `get_gemini_response` passes no `timeout`
argument: the call can block indefinitely. -/
def requestTimeoutSeconds : Option Nat := none

/-- Embedding of the transport portion of `get_gemini_response`
(`gemini.espeak.py`, lines 6-31): the call sits in no `try` block, so any
`requests` exception (timeout, connection failure) propagates out of the
function — modelled as `Except.error`. -/
def postRequest (β : Type) : NetOutcome β → Except String (Nat × β)
  | .response s b => .ok (s, b)
  | .timeout => .error "requests.exceptions.Timeout"
  | .requestException msg => .error msg

end GeminiEspeak

namespace Piper1

open PyStr

/-- One element of a candidate's `content.parts` array
(`.old/gemini.espeak_and_piper1.py`).  A missing `text` key reads back as
`""` through `part.get('text', '')`. -/
structure Part where
  text : Option String
deriving DecidableEq

/-- A candidate's `content` object.  `textDirect` models a `text` key sitting
directly inside `content` (the source's fallback branch). -/
structure Content where
  parts : Option (List Part)
  textDirect : Option String
deriving DecidableEq

/-- One element of the `candidates` array.  `safetyRatings` carries the
serialized rating payload opaquely; the parser only ever forwards it into
messages. -/
structure Candidate where
  finishReason : Option String
  safetyRatings : Option String
  content : Option Content
deriving DecidableEq

/-- The `promptFeedback` object. -/
structure PromptFeedback where
  blockReason : Option String
  safetyRatings : Option String
deriving DecidableEq

/-- The top-level `error` object of an API error body. -/
structure ApiError where
  message : Option String
  code : Option String
deriving DecidableEq

/-- A decoded response body, with exactly the fields
`_parse_gemini_response` reads.  `Option` models a missing (or `null`) key; a
candidate slot that is `none` models a `null` (or empty) element of the
`candidates` array. -/
structure Body where
  error : Option ApiError
  promptFeedback : Option PromptFeedback
  candidates : Option (List (Option Candidate))
deriving DecidableEq

/-- JSON rendering of a string (model of `json.dumps` on a string). -/
def dumpsStr (s : String) : String := "\"" ++ s ++ "\""

/-- Render an optional string field as a JSON object member list. -/
def dumpsField (name : String) : Option String → List String
  | none => []
  | some s => [dumpsStr name ++ ": " ++ dumpsStr s]

/-- Model of `json.dumps` on a candidate object (only used inside error
messages, whose exact rendering no claim constrains). -/
def Candidate.dumps (c : Candidate) : String :=
  "\x7b" ++ pyJoin ", "
    (dumpsField "finishReason" c.finishReason ++ dumpsField "safetyRatings" c.safetyRatings
      ++ (match c.content with
          | none => []
          | some ct => [dumpsStr "content" ++ ": \x7b" ++ pyJoin ", "
              ((match ct.parts with
                | none => []
                | some ps => [dumpsStr "parts" ++ ": ["
                    ++ pyJoin ", " (ps.map fun p => "\x7b" ++ pyJoin ", " (dumpsField "text" p.text) ++ "\x7d")
                    ++ "]"])
                ++ dumpsField "text" ct.textDirect) ++ "\x7d"]))
    ++ "\x7d"

/-- Model of `json.dumps` on a whole response body (only used inside error
messages). -/
def Body.dumps (b : Body) : String :=
  "\x7b" ++ pyJoin ", "
    ((match b.error with
      | none => []
      | some e => [dumpsStr "error" ++ ": \x7b"
          ++ pyJoin ", " (dumpsField "message" e.message ++ dumpsField "code" e.code) ++ "\x7d"])
      ++ (match b.promptFeedback with
          | none => []
          | some pf => [dumpsStr "promptFeedback" ++ ": \x7b"
              ++ pyJoin ", " (dumpsField "blockReason" pf.blockReason
                  ++ dumpsField "safetyRatings" pf.safetyRatings) ++ "\x7d"])
      ++ (match b.candidates with
          | none => []
          | some cs => [dumpsStr "candidates" ++ ": ["
              ++ pyJoin ", " (cs.map fun c? => match c? with
                  | none => "null"
                  | some c => c.dumps) ++ "]"]))
    ++ "\x7d"

/-- Python rendering of an optional string in an f-string: `None` prints as
`"None"`. -/
def pyShowOpt : Option String → String
  | none => "None"
  | some s => s

/-- The `ratings_str = json.dumps(safety_ratings) if safety_ratings else
"N/A"` idiom. -/
def ratingsStr : Option String → String
  | none => "N/A"
  | some s => if s = "" then "N/A" else dumpsStr s

/-- Text extraction from the first candidate
(`.old/gemini.espeak_and_piper1.py`, lines 137-146): concatenate the `text`
of every element of `content.parts` and strip, falling back to a `text` key
directly under `content`; with no content at all the text stays `""`. -/
def extractText (c : Candidate) : String :=
  match c.content with
  | none => ""
  | some ct =>
    match ct.parts with
    | some (p :: ps) => pyStrip (pyConcat (((p :: ps).map fun q => q.text.getD "")))
    | _ =>
      match ct.textDirect with
      | some t => pyStrip t
      | none => ""

/-- The markdown-fence cleanup at the end of `_parse_gemini_response`
(`.old/gemini.espeak_and_piper1.py`, lines 183-196; identical in
`.old/code.py`, lines 157-166): strip a leading and trailing triple-backtick
fence when the first line is a bare fence or fence-plus-language-tag. -/
def cleanFences (text : String) : String :=
  if pyStartsWith text "```" && pyEndsWith text "```" then
    let lines := pySplitlines text
    if lines.length > 1 then
      let firstLineContent := pyStrip (pyDrop (pyStrip (lines.headD "")) 3)
      if (pySplitWs firstLineContent).length ≤ 1 then
        pyStrip (pyJoin "\n" ((lines.drop 1).dropLast))
      else text
    else text
  else text

/-- The post-extraction branching of `_parse_gemini_response` on the first
candidate (`.old/gemini.espeak_and_piper1.py`, lines 131-196): the
finish-reason state machine, the empty-on-STOP warning, the extraction
failure, and finally the fence cleanup on the extracted text. -/
def parseCandidate (c : Candidate) : String :=
  let text := extractText c
  let afterFinish : String :=
    if c.finishReason = some "STOP" ∧ text = "" then
      "Warning: Received response with no content (finish reason: STOP)."
    else if text = "" ∧ c.finishReason ≠ some "STOP" then
      "Error: Failed to extract text content from candidate. Finish Reason: "
        ++ pyShowOpt c.finishReason ++ ". Candidate: " ++ c.dumps
    else cleanFences text
  match c.finishReason with
  | none => afterFinish
  | some fr =>
    if fr ≠ "" ∧ fr ≠ "STOP" ∧ fr ≠ "FINISH_REASON_UNSPECIFIED" then
      if fr = "MAX_TOKENS" then
        if text ≠ "" then
          "Warning: MAX_TOKENS limit reached. Output may be incomplete.\n---\n" ++ text
        else
          "Error: Candidate finished due to maximum token limit (" ++ fr
            ++ "). No partial content extracted."
      else if fr = "SAFETY" then
        if text ≠ "" then
          "Warning: SAFETY block triggered. Output may be filtered or incomplete.\n---\n" ++ text
        else
          "Error: Candidate content blocked due to safety (default policy - " ++ fr
            ++ "). Ratings: " ++ ratingsStr c.safetyRatings
      else
        if text ≠ "" then
          "Warning: Unexpected finish reason (" ++ fr ++ "). Output may be incomplete.\n---\n" ++ text
        else
          "Error: Candidate finished unexpectedly. Reason: " ++ fr ++ ". Safety Ratings: "
            ++ pyShowOpt c.safetyRatings
    else afterFinish

/-- The block-reason guard of `_parse_gemini_response`
(`.old/gemini.espeak_and_piper1.py`, lines 107-116): the prompt feedback is
acted on when a block reason is present, truthy, and not
`BLOCK_REASON_UNSPECIFIED`. -/
def activeBlockReason (body : Body) : Option String :=
  match body.promptFeedback with
  | none => none
  | some pf =>
    match pf.blockReason with
    | none => none
    | some r => if r ≠ "" ∧ r ≠ "BLOCK_REASON_UNSPECIFIED" then some r else none

/-- The message returned for a blocked prompt. -/
def blockedMsg (r : String) : String :=
  "Error: Response blocked due to content policy (default). Reason: " ++ r ++ "."

/-- The message returned when no candidates and no block reason are present. -/
def noCandidatesMsg (body : Body) : String :=
  "Error: No candidates found in response and no blocking reason identified. Response JSON: "
    ++ body.dumps

/-- Embedding of `_parse_gemini_response` on a decoded body
(`.old/gemini.espeak_and_piper1.py`, lines 91-196), in source order:
top-level `error`, then active block reason, then missing/empty `candidates`,
then a null first candidate, then the candidate state machine. -/
def parse (body : Body) : String :=
  match body.error with
  | some e =>
    "Error from API: " ++ e.message.getD "Unknown API error" ++ " (Code: "
      ++ e.code.getD "N/A" ++ ")"
  | none =>
    match activeBlockReason body with
    | some r => blockedMsg r
    | none =>
      match body.candidates with
      | none => noCandidatesMsg body
      | some [] => noCandidatesMsg body
      | some (none :: _) =>
        "Error: Received empty or invalid candidate list. Response JSON: " ++ body.dumps
      | some (some c :: _) => parseCandidate c

end Piper1

namespace GenAiConsole

open PyStr

/-- One element of `content.parts` (`gen_ai_console/gemini_handler.py`). -/
structure Part where
  text : Option String
deriving DecidableEq

/-- A candidate's `content` object. -/
structure Content where
  parts : Option (List Part)
deriving DecidableEq

/-- One element of the `candidates` array. -/
structure Candidate where
  content : Option Content
deriving DecidableEq

/-- The `promptFeedback` object. -/
structure PromptFeedback where
  blockReason : Option String
deriving DecidableEq

/-- A decoded response body, with the fields `generate_text` reads. -/
structure Body where
  candidates : Option (List Candidate)
  promptFeedback : Option PromptFeedback
deriving DecidableEq

/-- One entry of the `contents` list handed in as `history` (opaque to
`generate_text`, which only concatenates it into the request). -/
structure ContentEntry where
  role : String
  text : String
deriving DecidableEq

/-- Outcomes of the guarded region of `generate_text`
(`gen_ai_console/gemini_handler.py`, lines 25-67).  `requests.post` runs with
`timeout=90`; `raise_for_status` raises `HTTPError` on 4xx/5xx (carrying the
response), every other `requests` failure (timeouts included) is a
`RequestException`, and any remaining exception — including an undecodable
JSON body — lands in the final `except Exception` arm, modelled by
`unexpected`. -/
inductive Outcome where
  | success (body : Body)
  | httpError (status : Nat) (errText : String)
  | requestException (msg : String)
  | unexpected (msg : String)

/-- The `timeout=90` argument of the `requests.post` call
(`gen_ai_console/gemini_handler.py`, line 28). -/
def requestTimeoutSeconds : Option Nat := some 90

/-- The `full_text` computation:
`"".join(part.get('text', '') for part in text_parts).strip()`. -/
def extractFullText (ps : List Part) : String :=
  pyStrip (pyConcat (ps.map fun p => p.text.getD ""))

/-- The `else` arm of the candidate check: inspect
`promptFeedback.blockReason` (truthy) or fall back to the generic parse
failure message. -/
def noCandidatesResult (body : Body) : String :=
  match body.promptFeedback with
  | some pf =>
    match pf.blockReason with
    | some r =>
      if r ≠ "" then "Error: Your request was blocked by the API. Reason: " ++ r
      else "Error: Could not parse the response from the model."
    | none => "Error: Could not parse the response from the model."
  | none => "Error: Could not parse the response from the model."

/-- The request contents assembled by `generate_text`: the optional history
followed by one user entry holding the prompt. -/
def requestContents (history : List ContentEntry) (prompt : String) : List ContentEntry :=
  history ++ [⟨"user", prompt⟩]

/-- Embedding of `generate_text(api_key, model_name, prompt, history)`
(`gen_ai_console/gemini_handler.py`, lines 8-67) as a function of its
arguments and of the outcome of the guarded region.  Every arm returns a
string: the refusal-phrase check only logs and returns `full_text` either
way, so it does not appear in the value-level model. -/
def generate_text (api_key model_name prompt : String) (history : List ContentEntry)
    (outcome : Outcome) : String :=
  match outcome with
  | .success body =>
    match body.candidates with
    | some (c :: _) =>
      match c.content with
      | some ct =>
        match ct.parts with
        | some (p :: ps) =>
          let full_text := extractFullText (p :: ps)
          if full_text ≠ "" then full_text
          else "Error: Received an empty response from the model."
        | _ => noCandidatesResult body
      | none => noCandidatesResult body
    | _ => noCandidatesResult body
  | .httpError status _errText => "Error: API request failed (Status " ++ toString status ++ ")."
  | .requestException msg => "Error: Could not connect to the API. (" ++ msg ++ ")"
  | .unexpected msg => "Error: An unexpected error occurred. (" ++ msg ++ ")"

/-- The success path of `generate_text`: a decoded body whose first candidate
has a non-empty `parts` list with non-empty stripped joined text. -/
def successShape : Outcome → Bool
  | .success body =>
    match body.candidates with
    | some (c :: _) =>
      match c.content with
      | some ct =>
        match ct.parts with
        | some (p :: ps) => !(extractFullText (p :: ps)).isEmpty
        | _ => false
      | none => false
    | _ => false
  | _ => false

end GenAiConsole

namespace PyStr

theorem str_data_append (s t : String) : (s ++ t).data = s.data ++ t.data := by
  cases s; cases t; rfl

theorem str_append_empty (s : String) : s ++ "" = s := by
  cases s with
  | mk data =>
    show String.mk (data ++ []) = String.mk data
    rw [List.append_nil]

theorem str_empty_append (s : String) : "" ++ s = s := by
  cases s with
  | mk data =>
    show String.mk ([] ++ data) = String.mk data
    rw [List.nil_append]

/-- A string contains itself. -/
theorem strContains_self (s : String) : strContains s s :=
  ⟨"", "", by rw [str_empty_append, str_append_empty]⟩

/-- A string built as `a ++ sub ++ b` contains `sub`. -/
theorem strContains_of_eq (s a sub b : String) (h : s = a ++ sub ++ b) :
    strContains s sub := ⟨a, b, h⟩

/-- Appending on the right preserves containment. -/
theorem strContains_append_right (s t sub : String) (h : strContains s sub) :
    strContains (s ++ t) sub := by
  obtain ⟨a, b, rfl⟩ := h
  exact ⟨a, b ++ t, by rw [String.append_assoc, String.append_assoc]⟩

/-- Appending on the left preserves containment. -/
theorem strContains_append_left (s t sub : String) (h : strContains s sub) :
    strContains (t ++ s) sub := by
  obtain ⟨a, b, rfl⟩ := h
  exact ⟨t ++ a, b, by simp [String.append_assoc]⟩

/-- A `startswith` test only looks at a prefix, so extending the string on the
right cannot turn a positive test negative. -/
theorem pyStartsWith_append (s t pre : String) (h : pyStartsWith s pre = true) :
    pyStartsWith (s ++ t) pre = true := by
  unfold pyStartsWith at h ⊢
  rw [str_data_append]
  rw [List.isPrefixOf_iff_prefix] at h ⊢
  exact h.trans (List.prefix_append s.data t.data)

/-- A string contains any of its prefixes. -/
theorem strContains_prefix (s b : String) : strContains (s ++ b) s :=
  ⟨"", b, by rw [str_empty_append]⟩

/-- A string contains any of its suffixes. -/
theorem strContains_suffix (a s : String) : strContains (a ++ s) s :=
  ⟨a, "", by rw [str_append_empty]⟩

end PyStr

namespace GeminiEspeakAndPiper

theorem unpackHistory_pyPairs (H : List (String × String)) :
    unpackHistory (H.map pyPair) = .ok (H.map fun p => (.str p.1, .str p.2)) := by
  induction H with
  | nil => rfl
  | cons p rest ih => simp [unpackHistory, pyPair, unpack2, ih]

theorem entriesOfPairs_strings (H : List (String × String)) :
    entriesOfPairs (H.map fun p => (.str p.1, .str p.2))
      = (H.flatMap turnEntries, []) := by
  induction H with
  | nil => rfl
  | cons p rest ih => simp [entriesOfPairs, ih, turnEntries]

theorem length_flatMap_turnEntries (H : List (String × String)) :
    (H.flatMap turnEntries).length = 2 * H.length := by
  induction H with
  | nil => rfl
  | cons p rest ih => simp [turnEntries, ih]; ring

theorem pyStr_str (s : String) : pyStr (.str s) = s := rfl

theorem format_on_pairs (q m : String) (H : List (String × String)) :
    _format_gemini_payload q (H.map pyPair) m
      = .ok (⟨H.flatMap turnEntries ++ [⟨"user", [⟨finalText q m H⟩]⟩]⟩, []) := by
  unfold _format_gemini_payload
  rw [unpackHistory_pyPairs]
  cases H with
  | nil => rfl
  | cons p rest =>
    simp only [entriesOfPairs_strings, List.map_cons, List.map_map, finalText,
      List.isEmpty_cons, Bool.false_eq_true, if_false]
    simp [Function.comp_def, pyStr_str, turnEntries, entriesOfPairs, entriesOfPairs_strings]

end GeminiEspeakAndPiper

/-- Claim C1: for every history of text pairs (any length), every query and
every modifier, `_format_gemini_payload` builds exactly `2*|H| + 1` contents
entries — for each turn of the history in order, a user entry holding the
turn's query then a model entry holding the turn's response — followed by one
final user entry whose text contains the query and, when the modifier is
non-empty, the modifier; the build finishes without warnings or exceptions. -/
theorem claim1_payload_shape (q m : String) (H : List (String × String)) :
    ∃ t : String,
      GeminiEspeakAndPiper._format_gemini_payload q (H.map GeminiEspeakAndPiper.pyPair) m
        = .ok (⟨H.flatMap GeminiEspeakAndPiper.turnEntries ++ [⟨"user", [⟨t⟩]⟩]⟩, [])
      ∧ (H.flatMap GeminiEspeakAndPiper.turnEntries
           ++ [(⟨"user", [⟨t⟩]⟩ : GeminiEspeakAndPiper.Entry)]).length = 2 * H.length + 1
      ∧ PyStr.strContains t q ∧ (m ≠ "" → PyStr.strContains t m) := by
  refine ⟨GeminiEspeakAndPiper.finalText q m H,
    GeminiEspeakAndPiper.format_on_pairs q m H, ?_, ?_, ?_⟩
  · rw [List.length_append, GeminiEspeakAndPiper.length_flatMap_turnEntries]
    rfl
  · unfold GeminiEspeakAndPiper.finalText
    cases H with
    | nil =>
      simp only [List.isEmpty_nil, if_true]
      by_cases hm : m = ""
      · simp only [hm, ne_eq, not_true_eq_false, if_false]
        exact PyStr.strContains_self q
      · rw [if_pos hm]
        exact PyStr.strContains_suffix _ q
    | cons p rest =>
      simp only [List.isEmpty_cons, Bool.false_eq_true, if_false]
      exact PyStr.strContains_suffix _ q
  · intro hm
    unfold GeminiEspeakAndPiper.finalText
    cases H with
    | nil =>
      simp only [List.isEmpty_nil, if_true]
      rw [if_pos hm]
      exact PyStr.strContains_append_right _ q m
        (PyStr.strContains_prefix m "\nQuery: ")
    | cons p rest =>
      simp only [List.isEmpty_cons, Bool.false_eq_true, if_false]
      exact PyStr.strContains_append_right _ q m
        (PyStr.strContains_append_right _ _ m
          (PyStr.strContains_append_right _ _ m
            (PyStr.strContains_prefix m "\n---\nPrevious Context:\n")))

/-- Witness for C1 at a concrete input: one history turn, query `"ping"`,
modifier `"mod"`. -/
theorem claim1_payload_shape_witness :
    ∃ t : String,
      GeminiEspeakAndPiper._format_gemini_payload "ping"
          (([("a", "b")] : List (String × String)).map GeminiEspeakAndPiper.pyPair) "mod"
        = .ok (⟨([("a", "b")] : List (String × String)).flatMap GeminiEspeakAndPiper.turnEntries
                 ++ [⟨"user", [⟨t⟩]⟩]⟩, [])
      ∧ PyStr.strContains t "ping" ∧ PyStr.strContains t "mod" := by
  obtain ⟨t, h1, _h2, h3, h4⟩ := claim1_payload_shape "ping" "mod" [("a", "b")]
  exact ⟨t, h1, h3, h4 (by decide)⟩

/-- Claim C2 counterexample: the transport call of `get_gemini_response` in
`gemini.espeak.py` passes no timeout and sits in no `try` block, so a network
timeout propagates as a raised exception instead of resolving to a returned
error value — refuting "every transport call runs with a bounded timeout, and
no exception escapes the transport layer". -/
theorem claim2_counterexample :
    GeminiEspeak.postRequest Unit GeminiEspeak.NetOutcome.timeout
        = Except.error "requests.exceptions.Timeout"
      ∧ GeminiEspeak.requestTimeoutSeconds = none :=
  ⟨rfl, rfl⟩

/-- Claim C2 as amended: the transport layer `_call_gemini_api` of
`gemini.espeak_and_piper.py` runs with a bounded timeout (60 s, within the
observed 60-240 s range) and resolves every network-level failure to a
returned error value, never an escaping exception; the bare transport call in
`gemini.espeak.py` has neither property. -/
theorem claim2_piper_transport_total (β : Type) (o : GeminiEspeakAndPiper.NetOutcome β) :
    (∃ v, GeminiEspeakAndPiper._call_gemini_api β o = Except.ok v)
      ∧ ∃ n, GeminiEspeakAndPiper.requestTimeoutSeconds = some n ∧ 0 < n ∧ n ≤ 240 := by
  refine ⟨?_, 60, rfl, by norm_num, by norm_num⟩
  cases o with
  | success b => exact ⟨Sum.inr b, rfl⟩
  | timeout => exact ⟨_, rfl⟩
  | requestException msg => exact ⟨_, rfl⟩

/-- Claim C5: the markdown-fence cleanup strips a bare fence
(` ```\nhello\n``` ` becomes `hello`), strips a language-tagged fence
(` ```python\nprint(1)\n``` ` becomes `print(1)`), and leaves any text whose
triple-backticks are not at both the start and the end unmodified. -/
theorem claim5_fence_cleanup :
    Piper1.cleanFences "```\nhello\n```" = "hello"
  ∧ Piper1.cleanFences "```python\nprint(1)\n```" = "print(1)"
  ∧ ∀ s : String,
      ¬ (PyStr.pyStartsWith s "```" = true ∧ PyStr.pyEndsWith s "```" = true) →
        Piper1.cleanFences s = s := by
  refine ⟨by decide, by decide, ?_⟩
  intro s h
  unfold Piper1.cleanFences
  have hcond : (PyStr.pyStartsWith s "```" && PyStr.pyEndsWith s "```") = false := by
    cases hs : PyStr.pyStartsWith s "```" <;> cases he : PyStr.pyEndsWith s "```" <;>
      simp_all
  simp [hcond]

/-- Witness for C5's universal part: a text with internal triple-backticks
that is not fenced at both ends passes through unchanged. -/
theorem claim5_fence_cleanup_witness :
    Piper1.cleanFences "see ``` inside" = "see ``` inside" :=
  claim5_fence_cleanup.2.2 "see ``` inside" (by decide)

namespace GeminiEspeakAndPiper

theorem length_appendTurn_le (h : List (String × String)) (t : String × String) :
    (appendTurn h t).length ≤ capHist := by
  simp only [appendTurn, takeLast, capHist, List.length_drop]
  omega

theorem length_foldl_appendTurn_le (ts : List (String × String))
    (acc : List (String × String)) (hacc : acc.length ≤ capHist) :
    (ts.foldl appendTurn acc).length ≤ capHist := by
  induction ts generalizing acc with
  | nil => exact hacc
  | cons t rest ih => exact ih (appendTurn acc t) (length_appendTurn_le acc t)

end GeminiEspeakAndPiper

/-- Claim C6: at the cap (10 turns), storing one more turn evicts exactly the
oldest turn and keeps the remaining turns in order; one stored turn never
leaves the history above the cap, and so no sequence of stored turns does. -/
theorem claim6_history_cap :
    (∀ (h : List (String × String)) (t : String × String),
        h.length = GeminiEspeakAndPiper.capHist →
          GeminiEspeakAndPiper.appendTurn h t = h.drop 1 ++ [t])
  ∧ (∀ (h : List (String × String)) (t : String × String),
        (GeminiEspeakAndPiper.appendTurn h t).length ≤ GeminiEspeakAndPiper.capHist)
  ∧ (∀ ts : List (String × String),
        (ts.foldl GeminiEspeakAndPiper.appendTurn []).length
          ≤ GeminiEspeakAndPiper.capHist) := by
  refine ⟨?_, GeminiEspeakAndPiper.length_appendTurn_le, ?_⟩
  · intro h t hlen
    have h10 : h.length = 10 := hlen
    show (h ++ [t]).drop ((h ++ [t]).length - 10) = h.drop 1 ++ [t]
    rw [List.length_append, h10]
    show (h ++ [t]).drop 1 = h.drop 1 ++ [t]
    exact List.drop_append_of_le_length (by omega)
  · intro ts
    exact GeminiEspeakAndPiper.length_foldl_appendTurn_le ts [] (by simp)

/-- Witness for C6 at a history holding exactly 10 turns. -/
theorem claim6_history_cap_witness :
    GeminiEspeakAndPiper.appendTurn
        [("q1", "r1"), ("q2", "r2"), ("q3", "r3"), ("q4", "r4"), ("q5", "r5"),
         ("q6", "r6"), ("q7", "r7"), ("q8", "r8"), ("q9", "r9"), ("q10", "r10")]
        ("q11", "r11")
      = [("q2", "r2"), ("q3", "r3"), ("q4", "r4"), ("q5", "r5"), ("q6", "r6"),
         ("q7", "r7"), ("q8", "r8"), ("q9", "r9"), ("q10", "r10"), ("q11", "r11")] :=
  (claim6_history_cap.1
    [("q1", "r1"), ("q2", "r2"), ("q3", "r3"), ("q4", "r4"), ("q5", "r5"),
     ("q6", "r6"), ("q7", "r7"), ("q8", "r8"), ("q9", "r9"), ("q10", "r10")]
    ("q11", "r11") (by decide)).trans (by decide)

/-- Claim C7 (code bug): the transport layer reports a connection failure as
`"Error communicating with API: ..."`, which does not carry the `"Error:"`
prefix the main loop's guard checks, so this failed exchange IS appended to
the conversation history — against both the guard's evident intent and the
spec's "failed exchanges are never appended". -/
theorem claim7_failed_exchange_recorded :
    GeminiEspeakAndPiper._call_gemini_api Unit
        (GeminiEspeakAndPiper.NetOutcome.requestException "Connection refused")
      = Except.ok (Sum.inl "Error communicating with API: Connection refused")
  ∧ PyStr.pyStartsWith "Error communicating with API: Connection refused" "Error:" = false
  ∧ GeminiEspeakAndPiper.updateHistory [] "why is the sky blue"
        "Error communicating with API: Connection refused"
      = [("why is the sky blue", "Error communicating with API: Connection refused")] := by
  refine ⟨rfl, by decide, by decide⟩

/-- Claim C8 (code bug): a history entry that is not a two-element sequence —
here the integer `42` — is hit by the `for q, a in history:` unpacking before
the `isinstance` guard can skip it, so the build aborts with an exception
instead of skipping the entry with a warning.  A two-element entry with
non-string components, by contrast, is skipped with a warning as the claim
describes. -/
theorem claim8_wrong_shape_aborts :
    GeminiEspeakAndPiper._format_gemini_payload "current query"
        [GeminiEspeakAndPiper.PyVal.int 42] ""
      = Except.error "TypeError: cannot unpack history entry of type <class \x27int\x27>"
  ∧ GeminiEspeakAndPiper._format_gemini_payload "current query"
        [GeminiEspeakAndPiper.PyVal.list
          [GeminiEspeakAndPiper.PyVal.int 1, GeminiEspeakAndPiper.PyVal.int 2]] ""
      = Except.ok
          (⟨[⟨"user",
              [⟨"\n---\nPrevious Context:\nUser: 1\nModel: 2\n---\nCurrent Query:\ncurrent query"⟩]⟩]⟩,
           ["Warning: Skipping invalid history entry: (<class \x27int\x27>, <class \x27int\x27>)"]) :=
  ⟨rfl, rfl⟩

namespace GeminiEspeakAndPiper

theorem all_validTurn_save (h : List (String × String)) :
    ((h.map fun p => Json.arr [Json.str p.1, Json.str p.2]).all validTurn) = true := by
  induction h with
  | nil => rfl
  | cons p rest ih => simp [validTurn, ih]

end GeminiEspeakAndPiper

/-- Claim C9: serializing a valid history (at most cap turns of text pairs)
to the external JSON shape and loading it back through the `/load` validation
yields exactly the serialized turns, and the serialization is injective, so
the loaded sequence determines the original history. -/
theorem claim9_roundtrip (h : List (String × String))
    (hcap : h.length ≤ GeminiEspeakAndPiper.capHist) :
    GeminiEspeakAndPiper.loadHistory (GeminiEspeakAndPiper.saveHistory h)
      = some (h.map fun p => GeminiEspeakAndPiper.Json.arr [.str p.1, .str p.2])
  ∧ ∀ h₂ : List (String × String),
      (h₂.map fun p => GeminiEspeakAndPiper.Json.arr [.str p.1, .str p.2])
        = (h.map fun p => GeminiEspeakAndPiper.Json.arr [.str p.1, .str p.2]) → h₂ = h := by
  constructor
  · simp [GeminiEspeakAndPiper.loadHistory, GeminiEspeakAndPiper.saveHistory,
      GeminiEspeakAndPiper.all_validTurn_save]
  · intro h₂ he
    have hinj : Function.Injective
        (fun p : String × String => GeminiEspeakAndPiper.Json.arr [.str p.1, .str p.2]) := by
      intro p1 p2 hp
      simp only [GeminiEspeakAndPiper.Json.arr.injEq, List.cons.injEq,
        GeminiEspeakAndPiper.Json.str.injEq, and_true] at hp
      exact Prod.ext hp.1 hp.2
    exact List.map_injective_iff.mpr hinj he

/-- Witness for C9 at a one-turn history. -/
theorem claim9_roundtrip_witness :
    GeminiEspeakAndPiper.loadHistory (GeminiEspeakAndPiper.saveHistory [("a", "b")])
      = some [GeminiEspeakAndPiper.Json.arr [.str "a", .str "b"]] :=
  (claim9_roundtrip [("a", "b")] (by decide)).1

/-- Claim C3: on a body with no top-level error and no active block reason
whose first candidate finished with `MAX_TOKENS`, the parser returns the
truncation warning carrying the extracted text when that text is non-empty
(the `OkWithWarning(text, Truncated)` outcome), and the truncation error
(`Failed(Truncated, detail)`) when the extracted text is empty. -/
theorem claim3_max_tokens (body : Piper1.Body) (c : Piper1.Candidate)
    (rest : List (Option Piper1.Candidate))
    (herr : body.error = none)
    (hblock : Piper1.activeBlockReason body = none)
    (hc : body.candidates = some (some c :: rest))
    (hfr : c.finishReason = some "MAX_TOKENS") :
    (Piper1.extractText c ≠ "" →
        Piper1.parse body
          = "Warning: MAX_TOKENS limit reached. Output may be incomplete.\n---\n"
              ++ Piper1.extractText c)
  ∧ (Piper1.extractText c = "" →
        Piper1.parse body
          = "Error: Candidate finished due to maximum token limit (MAX_TOKENS). No partial content extracted.") := by
  constructor <;> intro ht <;>
    simp [Piper1.parse, Piper1.parseCandidate, herr, hblock, hc, hfr, ht]

/-- Witness for C3: a `MAX_TOKENS` candidate with parts text `"partial"`
yields the truncation warning wrapping `"partial"`. -/
theorem claim3_max_tokens_witness :
    Piper1.parse
        ⟨none, none,
         some [some ⟨some "MAX_TOKENS", none, some ⟨some [⟨some "partial"⟩], none⟩⟩]⟩
      = "Warning: MAX_TOKENS limit reached. Output may be incomplete.\n---\npartial" :=
  ((claim3_max_tokens
      ⟨none, none,
       some [some ⟨some "MAX_TOKENS", none, some ⟨some [⟨some "partial"⟩], none⟩⟩]⟩
      ⟨some "MAX_TOKENS", none, some ⟨some [⟨some "partial"⟩], none⟩⟩
      [] rfl rfl rfl rfl).1 (by decide)).trans (by decide)

/-- Claim C4: on a body with no top-level error whose `candidates` array is
missing or empty, the parser inspects the prompt feedback's block reason —
when one is present, truthy and not `BLOCK_REASON_UNSPECIFIED` the result is
the blocked-prompt failure carrying that reason (`Failed(Blocked, reason)`),
otherwise the no-candidates failure carrying a raw JSON excerpt
(`Failed(NoCandidates, excerpt)`). -/
theorem claim4_no_candidates (body : Piper1.Body)
    (herr : body.error = none)
    (hc : body.candidates = none ∨ body.candidates = some []) :
    Piper1.parse body
      = (match Piper1.activeBlockReason body with
         | some r => Piper1.blockedMsg r
         | none => Piper1.noCandidatesMsg body) := by
  rcases hc with hc | hc <;>
    cases habr : Piper1.activeBlockReason body <;>
      simp [Piper1.parse, herr, hc, habr]

/-- Witness for C4: empty `candidates` with `promptFeedback.blockReason =
"SAFETY"` yields the blocked-prompt failure carrying `"SAFETY"`. -/
theorem claim4_no_candidates_witness :
    Piper1.parse ⟨none, some ⟨some "SAFETY", none⟩, some []⟩
      = "Error: Response blocked due to content policy (default). Reason: SAFETY." :=
  (claim4_no_candidates ⟨none, some ⟨some "SAFETY", none⟩, some []⟩ rfl
    (Or.inr rfl)).trans (by decide)

namespace GenAiConsole

theorem noCandidatesResult_error (cands : Option (List Candidate))
    (pf : Option PromptFeedback) :
    PyStr.pyStartsWith (noCandidatesResult ⟨cands, pf⟩) "Error:" = true := by
  cases pf with
  | none =>
    show PyStr.pyStartsWith "Error: Could not parse the response from the model." "Error:" = true
    decide
  | some pfv =>
    obtain ⟨br⟩ := pfv
    cases br with
    | none =>
      show PyStr.pyStartsWith "Error: Could not parse the response from the model." "Error:" = true
      decide
    | some r =>
      by_cases hr : r = ""
      · subst hr
        show PyStr.pyStartsWith
            (if ("" : String) ≠ "" then "Error: Your request was blocked by the API. Reason: " ++ ""
             else "Error: Could not parse the response from the model.") "Error:" = true
        decide
      · show PyStr.pyStartsWith
            (if r ≠ "" then "Error: Your request was blocked by the API. Reason: " ++ r
             else "Error: Could not parse the response from the model.") "Error:" = true
        rw [if_pos hr]
        exact PyStr.pyStartsWith_append
          "Error: Your request was blocked by the API. Reason: " r "Error:" (by decide)

end GenAiConsole

/-- Claim C10: `generate_text` is total at its interface — every modelled
outcome of the guarded region yields a returned string — and on every
non-success path (HTTP error, connection failure or timeout, unexpected
exception, blocked prompt, missing or empty candidates or parts, empty
extracted text) the returned string starts with `"Error:"`, so success and
failure share the string-typed channel distinguished by that prefix. -/
theorem claim10_error_prefix (api_key model_name prompt : String)
    (history : List GenAiConsole.ContentEntry) (o : GenAiConsole.Outcome)
    (hfail : GenAiConsole.successShape o = false) :
    PyStr.pyStartsWith
        (GenAiConsole.generate_text api_key model_name prompt history o) "Error:" = true := by
  cases o with
  | httpError status errText =>
    exact PyStr.pyStartsWith_append
      ("Error: API request failed (Status " ++ toString status) "." "Error:"
      (PyStr.pyStartsWith_append
        "Error: API request failed (Status " (toString status) "Error:" (by decide))
  | requestException msg =>
    exact PyStr.pyStartsWith_append
      ("Error: Could not connect to the API. (" ++ msg) ")" "Error:"
      (PyStr.pyStartsWith_append
        "Error: Could not connect to the API. (" msg "Error:" (by decide))
  | unexpected msg =>
    exact PyStr.pyStartsWith_append
      ("Error: An unexpected error occurred. (" ++ msg) ")" "Error:"
      (PyStr.pyStartsWith_append
        "Error: An unexpected error occurred. (" msg "Error:" (by decide))
  | success body =>
    obtain ⟨cands, pf⟩ := body
    cases cands with
    | none => exact GenAiConsole.noCandidatesResult_error none pf
    | some cs =>
      cases cs with
      | nil => exact GenAiConsole.noCandidatesResult_error (some []) pf
      | cons c rest =>
        obtain ⟨contentOpt⟩ := c
        cases contentOpt with
        | none => exact GenAiConsole.noCandidatesResult_error (some (⟨none⟩ :: rest)) pf
        | some ct =>
          obtain ⟨partsOpt⟩ := ct
          cases partsOpt with
          | none =>
            exact GenAiConsole.noCandidatesResult_error (some (⟨some ⟨none⟩⟩ :: rest)) pf
          | some ps =>
            cases ps with
            | nil =>
              exact GenAiConsole.noCandidatesResult_error
                (some (⟨some ⟨some []⟩⟩ :: rest)) pf
            | cons p prest =>
              have htext : GenAiConsole.extractFullText (p :: prest) = "" := by
                simp only [GenAiConsole.successShape, Bool.not_eq_false'] at hfail
                rw [← String.isEmpty_iff]
                exact hfail
              show PyStr.pyStartsWith
                  (if GenAiConsole.extractFullText (p :: prest) ≠ "" then
                      GenAiConsole.extractFullText (p :: prest)
                    else "Error: Received an empty response from the model.") "Error:" = true
              rw [if_neg (by simp [htext])]
              decide

/-- Witness for C10 at a failing outcome: a connection failure returns an
`"Error:"`-prefixed string rather than raising. -/
theorem claim10_error_prefix_witness :
    PyStr.pyStartsWith
        (GenAiConsole.generate_text "key" "gemini" "hello" []
          (GenAiConsole.Outcome.requestException "ConnectionError"))
        "Error:" = true :=
  claim10_error_prefix "key" "gemini" "hello" []
    (GenAiConsole.Outcome.requestException "ConnectionError") (by decide)
